import Mathlib

/-!
Verification of the request-construction core of the SS12000 Node.js client
(`ss12000-client.js` and its later variant).  The JavaScript values that flow
through the parameter-mapping layer are embedded as `JsValue`; property access,
query building (`_get`'s `URLSearchParams` loop) and the response handlers of
the four verb dispatchers are translated function by function from the source.
-/

namespace SS12000

/-- A JavaScript value as it appears in the parameter-mapping layer:
`undefined`, `null`, booleans, numbers (the client only passes integers such
as `limit`), strings, arrays and plain objects (ordered field lists). -/
inductive JsValue where
  | undef
  | null
  | bool (b : Bool)
  | num (n : Int)
  | str (s : String)
  | arr (elems : List JsValue)
  | obj (fields : List (String × JsValue))

/-- An error raised by the client code: `TypeError` (from a property access on
`undefined`/`null`), a plain `Error` (thrown by the dispatchers on non-2xx
responses), or a `SyntaxError` (rejection of `response.json()` on a body that
is not valid JSON). -/
inductive JsError where
  | typeError (msg : String)
  | error (msg : String)
  | syntaxError (msg : String)

mutual

/-- `String(v)`: the JavaScript string coercion used by
`url.searchParams.append(key, value)` and by template literals. -/
def jsToString : JsValue → String
  | .undef => ("undefined")
  | .null => ("null")
  | .bool b => if b then ("true") else ("false")
  | .num n => toString n
  | .str s => s
  | .arr elems => String.intercalate (",") (jsArrayElems elems)
  | .obj _ => ("[object Object]")

/-- Elements of `Array.prototype.toString` (joined with commas);
`null`/`undefined` elements render as the empty string. -/
def jsArrayElems : List JsValue → List String
  | [] => []
  | .undef :: vs => ("") :: jsArrayElems vs
  | .null :: vs => ("") :: jsArrayElems vs
  | v :: vs => jsToString v :: jsArrayElems vs

end

/-- Escape of one character inside a JSON string literal. -/
def jsonEscapeChar (c : Char) : String :=
  if c = '"' then ("\\\"") else if c = '\\' then ("\\\\") else String.singleton c

/-- Escape of a JSON string literal body. -/
def jsonEscape (s : String) : String :=
  String.join (s.toList.map jsonEscapeChar)

mutual

/-- `JSON.stringify(v)`, as used in the error message of the dispatchers.
(`JSON.stringify(undefined)` yields the JavaScript value `undefined`, which a
template literal renders as the string below.) -/
def jsonStringify : JsValue → String
  | .undef => ("undefined")
  | .null => ("null")
  | .bool b => if b then ("true") else ("false")
  | .num n => toString n
  | .str s => ("\"") ++ jsonEscape s ++ ("\"")
  | .arr elems => ("[") ++ String.intercalate (",") (jsonStringifyList elems) ++ ("]")
  | .obj fields => ("\x7b") ++ String.intercalate (",") (jsonStringifyFields fields) ++ ("\x7d")

/-- `JSON.stringify` of the elements of an array. -/
def jsonStringifyList : List JsValue → List String
  | [] => []
  | v :: vs => jsonStringify v :: jsonStringifyList vs

/-- `JSON.stringify` of the fields of an object. -/
def jsonStringifyFields : List (String × JsValue) → List String
  | [] => []
  | (k, v) :: fs => (("\"") ++ jsonEscape k ++ ("\":") ++ jsonStringify v) :: jsonStringifyFields fs

end

/-- JavaScript property access `v[k]` (`v.k`): throws a `TypeError` when the
base is `undefined` or `null`, looks the key up when the base is an object
(absent keys give `undefined`), and gives `undefined` on other primitives. -/
def jsGet : JsValue → String → Except JsError JsValue
  | .undef, k => .error (.typeError (("Cannot read properties of undefined (reading ") ++ k ++ (")")))
  | .null, k => .error (.typeError (("Cannot read properties of null (reading ") ++ k ++ (")")))
  | .obj fields, k =>
    match List.lookup k fields with
    | some v => .ok v
    | none => .ok .undef
  | _, _ => .ok JsValue.undef

/-- The query-building loop of `_get` (and of the inline copies in the lookup
methods): for each key in order, a value that is `undefined` or `null` is
skipped, an array value appends the key once per element in order, and any
other value appends the key once with its string coercion.  The result is the
ordered list of `(key, value)` pairs held by `url.searchParams`. -/
def buildQuery : List (String × JsValue) → List (String × String)
  | [] => []
  | (k, v) :: rest =>
    (match v with
     | .undef => []
     | .null => []
     | .arr elems => elems.map (fun item => (k, jsToString item))
     | v => [(k, jsToString v)]) ++ buildQuery rest

/-- An HTTP verb. -/
inductive Method where
  | GET
  | POST
  | PATCH
  | DELETE

/-- The outgoing request a client method constructs: verb, path relative to
the base URL, the ordered query pairs, and the JSON body (for POST/PATCH). -/
structure Request where
  method : Method
  path : String
  query : List (String × String)
  body : Option JsValue

/-- An HTTP response as the dispatchers see it: status code, status text, and
the result of parsing the body as JSON (`none` when the body is empty or not
valid JSON, in which case `response.json()` rejects). -/
structure Response where
  status : Nat
  statusText : String
  body : Option JsValue

/-- `response.ok`: status in the range 200-299. -/
def Response.ok (r : Response) : Bool :=
  200 ≤ r.status && r.status < 300

/-- The error payload used on a non-2xx response:
`await response.json().catch(() => ({ message: response.statusText }))`. -/
def errorPayload (r : Response) : JsValue :=
  match r.body with
  | some v => v
  | none => .obj [(("message"), .str r.statusText)]

/-- The message of the `Error` thrown on a non-2xx response:
`API call failed: status statusText - JSON.stringify(errorBody)`. -/
def apiErrorMessage (r : Response) : String :=
  ("API call failed: ") ++ toString r.status ++ (" ") ++ r.statusText ++ (" - ")
    ++ jsonStringify (errorPayload r)

/-- Response handling of `_get`: on non-ok status throw the normalized error;
otherwise `return response.json()`, which yields the parsed body or rejects
with a `SyntaxError` when the body is empty or not valid JSON. -/
def handleGetResponse (r : Response) : Except JsError JsValue :=
  if !r.ok then .error (.error (apiErrorMessage r))
  else
    match r.body with
    | some v => .ok v
    | none => .error (.syntaxError ("Unexpected end of JSON input"))

/-- Response handling of `_post` (identical to `_get`). -/
def handlePostResponse (r : Response) : Except JsError JsValue :=
  if !r.ok then .error (.error (apiErrorMessage r))
  else
    match r.body with
    | some v => .ok v
    | none => .error (.syntaxError ("Unexpected end of JSON input"))

/-- Response handling of `_patch` (identical to `_get`). -/
def handlePatchResponse (r : Response) : Except JsError JsValue :=
  if !r.ok then .error (.error (apiErrorMessage r))
  else
    match r.body with
    | some v => .ok v
    | none => .error (.syntaxError ("Unexpected end of JSON input"))

/-- Response handling of `_delete`: status 204 returns immediately with no
content; any other non-ok status throws the normalized error; an ok status
falls through and returns `undefined` without touching the body. -/
def handleDeleteResponse (r : Response) : Except JsError Unit :=
  if r.status = 204 then .ok ()
  else if !r.ok then .error (.error (apiErrorMessage r))
  else .ok ()

namespace Client

/-- `getOrganisations(params = {})` of `ss12000-client.js`: builds the
`mappedParams` object literal (flat camelCase caller fields to dotted wire
keys, evaluated top to bottom) and performs `_get('/organisations', ...)`. -/
def getOrganisations (params : JsValue) : Except JsError Request := do
  let mappedParams : List (String × JsValue) := [
    (("parent"), ← jsGet params ("parent")),
    (("schoolUnitCode"), ← jsGet params ("schoolUnitCode")),
    (("organisationCode"), ← jsGet params ("organisationCode")),
    (("municipalityCode"), ← jsGet params ("municipalityCode")),
    (("type"), ← jsGet params ("type")),
    (("schoolTypes"), ← jsGet params ("schoolTypes")),
    (("startDate.onOrBefore"), ← jsGet params ("startDateOnOrBefore")),
    (("startDate.onOrAfter"), ← jsGet params ("startDateOnOrAfter")),
    (("endDate.onOrBefore"), ← jsGet params ("endDateOnOrBefore")),
    (("endDate.onOrAfter"), ← jsGet params ("endDateOnOrAfter")),
    (("meta.created.before"), ← jsGet params ("metaCreatedBefore")),
    (("meta.created.after"), ← jsGet params ("metaCreatedAfter")),
    (("meta.modified.before"), ← jsGet params ("metaModifiedBefore")),
    (("meta.modified.after"), ← jsGet params ("metaModifiedAfter")),
    (("expandReferenceNames"), ← jsGet params ("expandReferenceNames")),
    (("sortkey"), ← jsGet params ("sortkey")),
    (("limit"), ← jsGet params ("limit")),
    (("pageToken"), ← jsGet params ("pageToken"))]
  pure { method := .GET, path := ("/organisations"),
         query := buildQuery mappedParams, body := none }

/-- `getPersons(params = {})` of `ss12000-client.js`: flat camelCase caller
fields to dotted wire keys, then `_get('/persons', ...)`. -/
def getPersons (params : JsValue) : Except JsError Request := do
  let mappedParams : List (String × JsValue) := [
    (("nameContains"), ← jsGet params ("nameContains")),
    (("civicNo"), ← jsGet params ("civicNo")),
    (("eduPersonPrincipalName"), ← jsGet params ("eduPersonPrincipalName")),
    (("identifier.value"), ← jsGet params ("identifierValue")),
    (("identifier.context"), ← jsGet params ("identifierContext")),
    (("relationship.entity.type"), ← jsGet params ("relationshipEntityType")),
    (("relationship.organisation"), ← jsGet params ("relationshipOrganisation")),
    (("relationship.startDate.onOrBefore"), ← jsGet params ("relationshipStartDateOnOrBefore")),
    (("relationship.startDate.onOrAfter"), ← jsGet params ("relationshipStartDateOnOrAfter")),
    (("relationship.endDate.onOrBefore"), ← jsGet params ("relationshipEndDateOnOrBefore")),
    (("relationship.endDate.onOrAfter"), ← jsGet params ("relationshipEndDateOnOrAfter")),
    (("meta.created.before"), ← jsGet params ("metaCreatedBefore")),
    (("meta.created.after"), ← jsGet params ("metaCreatedAfter")),
    (("meta.modified.before"), ← jsGet params ("metaModifiedBefore")),
    (("meta.modified.after"), ← jsGet params ("metaModifiedAfter")),
    (("expand"), ← jsGet params ("expand")),
    (("expandReferenceNames"), ← jsGet params ("expandReferenceNames")),
    (("sortkey"), ← jsGet params ("sortkey")),
    (("limit"), ← jsGet params ("limit")),
    (("pageToken"), ← jsGet params ("pageToken"))]
  pure { method := .GET, path := ("/persons"),
         query := buildQuery mappedParams, body := none }

/-- `lookupPersons(body, expand = [], expandReferenceNames = false)` of
`ss12000-client.js`: POST to `/persons/lookup` with `body` JSON-serialized as
the request body and `{ expand, expandReferenceNames }` run through the same
query-appending loop as `_get` (array branch included). -/
def lookupPersons (body : JsValue) (expand : List String) (expandReferenceNames : Bool) :
    Request :=
  { method := .POST, path := ("/persons/lookup"),
    query := buildQuery [
      (("expand"), .arr (expand.map .str)),
      (("expandReferenceNames"), .bool expandReferenceNames)],
    body := some body }

/-- `getOrganisationById(id, expandReferenceNames = false)` of
`ss12000-client.js`: no validation of `id`; the path is the template literal
result (JavaScript string coercion of `id`), then `_get`. -/
def getOrganisationById (id : JsValue) (expandReferenceNames : Bool) : Request :=
  { method := .GET, path := ("/organisations/") ++ jsToString id,
    query := buildQuery [(("expandReferenceNames"), .bool expandReferenceNames)],
    body := none }

/-- `getDeletedEntities(params = {})` of `ss12000-client.js`: only the two
caller fields `entities` and `metaModifiedAfter` are mapped, to wire keys
`entities` and `meta.modified.after`, then `_get('/deletedEntities', ...)`. -/
def getDeletedEntities (params : JsValue) : Except JsError Request := do
  let mappedParams : List (String × JsValue) := [
    (("entities"), ← jsGet params ("entities")),
    (("meta.modified.after"), ← jsGet params ("metaModifiedAfter"))]
  pure { method := .GET, path := ("/deletedEntities"),
         query := buildQuery mappedParams, body := none }

end Client

namespace Part003

/-- `getAttendances(params = {})` of the `src/unnamed/part_003` variant: the
meta filters are read pre-nested (`params.meta.created.before` etc.), so the
object-literal evaluation dereferences `params.meta` before any request is
built; then `_get('/attendances', ...)`. -/
def getAttendances (params : JsValue) : Except JsError Request := do
  let mappedParams : List (String × JsValue) := [
    (("calendarEvent"), ← jsGet params ("calendarEvent")),
    (("student"), ← jsGet params ("student")),
    (("organisation"), ← jsGet params ("organisation")),
    (("meta.created.before"), ← jsGet (← jsGet (← jsGet params ("meta")) ("created")) ("before")),
    (("meta.created.after"), ← jsGet (← jsGet (← jsGet params ("meta")) ("created")) ("after")),
    (("meta.modified.before"), ← jsGet (← jsGet (← jsGet params ("meta")) ("modified")) ("before")),
    (("meta.modified.after"), ← jsGet (← jsGet (← jsGet params ("meta")) ("modified")) ("after")),
    (("expandReferenceNames"), ← jsGet params ("expandReferenceNames")),
    (("limit"), ← jsGet params ("limit")),
    (("pageToken"), ← jsGet params ("pageToken"))]
  pure { method := .GET, path := ("/attendances"),
         query := buildQuery mappedParams, body := none }

/-- `getSyllabuses(params = {})` of the `src/unnamed/part_003` variant: the
meta filters are read pre-nested (`params.meta.created.before` etc.), then
`_get('/syllabuses', ...)`. -/
def getSyllabuses (params : JsValue) : Except JsError Request := do
  let mappedParams : List (String × JsValue) := [
    (("meta.created.before"), ← jsGet (← jsGet (← jsGet params ("meta")) ("created")) ("before")),
    (("meta.created.after"), ← jsGet (← jsGet (← jsGet params ("meta")) ("created")) ("after")),
    (("meta.modified.before"), ← jsGet (← jsGet (← jsGet params ("meta")) ("modified")) ("before")),
    (("meta.modified.after"), ← jsGet (← jsGet (← jsGet params ("meta")) ("modified")) ("after")),
    (("expandReferenceNames"), ← jsGet params ("expandReferenceNames")),
    (("sortkey"), ← jsGet params ("sortkey")),
    (("limit"), ← jsGet params ("limit")),
    (("pageToken"), ← jsGet params ("pageToken"))]
  pure { method := .GET, path := ("/syllabuses"),
         query := buildQuery mappedParams, body := none }

/-- `getDeletedEntities(params = {})` of the `src/unnamed/part_003` variant:
the four caller fields `after`, `entities`, `limit`, `pageToken` map to wire
keys of the same names, then `_get('/deletedEntities', ...)`. -/
def getDeletedEntities (params : JsValue) : Except JsError Request := do
  let mappedParams : List (String × JsValue) := [
    (("after"), ← jsGet params ("after")),
    (("entities"), ← jsGet params ("entities")),
    (("limit"), ← jsGet params ("limit")),
    (("pageToken"), ← jsGet params ("pageToken"))]
  pure { method := .GET, path := ("/deletedEntities"),
         query := buildQuery mappedParams, body := none }

end Part003

/-! Helper lemmas about the embedding. -/

/-- `pure` in the `Except` monad is `Except.ok`. -/
theorem pure_eq_ok {α : Type} (x : α) : (pure x : Except JsError α) = .ok x := rfl

/-- Bind on a successful `Except` computation. -/
theorem ok_bind {α β : Type} (x : α) (f : α → Except JsError β) :
    ((Except.ok x : Except JsError α) >>= f) = f x := rfl

/-- Bind on a failed `Except` computation short-circuits. -/
theorem error_bind {α β : Type} (e : JsError) (f : α → Except JsError β) :
    ((Except.error e : Except JsError α) >>= f) = Except.error e := rfl

/-- Property lookup on an object, with `undefined` for an absent key. -/
def jsGetD (fields : List (String × JsValue)) (k : String) : JsValue :=
  (List.lookup k fields).getD JsValue.undef

/-- `jsGet` never throws on an object base. -/
theorem jsGet_obj (fields : List (String × JsValue)) (k : String) :
    jsGet (.obj fields) k = .ok (jsGetD fields k) := by
  simp only [jsGet, jsGetD]
  cases List.lookup k fields <;> rfl

/-- The contribution of a single binding to the query (the body of the
`forEach` loop in `_get`). -/
def expandParam (k : String) (v : JsValue) : List (String × String) :=
  match v with
  | .undef => []
  | .null => []
  | .arr elems => elems.map (fun item => (k, jsToString item))
  | v => [(k, jsToString v)]

/-- `buildQuery` processes the bindings in order, one loop body at a time. -/
theorem buildQuery_cons (k : String) (v : JsValue) (rest : List (String × JsValue)) :
    buildQuery ((k, v) :: rest) = expandParam k v ++ buildQuery rest := by
  cases v <;> rfl

/-- Every pair contributed by one binding carries that binding's key. -/
theorem expandParam_key {k : String} {v : JsValue} {q : String × String}
    (h : q ∈ expandParam k v) : q.1 = k := by
  cases v <;> simp [expandParam] at h
  case arr elems =>
    rcases h with ⟨item, _, hq⟩
    rw [← hq]
  all_goals rw [h]

/-- Every pair of the constructed query comes from a binding with that key
whose value was neither `undefined` nor `null`. -/
theorem mem_buildQuery {ps : List (String × JsValue)} {q : String × String}
    (h : q ∈ buildQuery ps) :
    ∃ v, (q.1, v) ∈ ps ∧ v ≠ JsValue.undef ∧ v ≠ JsValue.null := by
  induction ps with
  | nil => simp [buildQuery] at h
  | cons b rest ih =>
    obtain ⟨k1, v1⟩ := b
    rw [buildQuery_cons] at h
    rcases List.mem_append.mp h with h1 | h2
    · refine ⟨v1, ?_, ?_, ?_⟩
      · rw [expandParam_key h1]
        exact List.mem_cons_self _ _
      · rintro rfl
        simp [expandParam] at h1
      · rintro rfl
        simp [expandParam] at h1
    · rcases ih h2 with ⟨v, hv, hv1, hv2⟩
      exact ⟨v, List.mem_cons_of_mem _ hv, hv1, hv2⟩

/-- Every key of the constructed query is a key of the parameter object. -/
theorem buildQuery_keys_sub {ps : List (String × JsValue)} {q : String × String}
    (h : q ∈ buildQuery ps) : q.1 ∈ ps.map Prod.fst := by
  rcases mem_buildQuery h with ⟨v, hv, _, _⟩
  exact List.mem_map.mpr ⟨(q.1, v), hv, rfl⟩

/-- A string-valued binding appears in the constructed query as is. -/
theorem mem_buildQuery_of_str {ps : List (String × JsValue)} {k s : String}
    (h : (k, JsValue.str s) ∈ ps) : (k, s) ∈ buildQuery ps := by
  induction ps with
  | nil => simp at h
  | cons b rest ih =>
    obtain ⟨k1, v1⟩ := b
    rw [buildQuery_cons]
    rcases List.mem_cons.mp h with heq | hmem
    · obtain ⟨rfl, rfl⟩ := Prod.mk.injEq .. ▸ heq
      exact List.mem_append.mpr (Or.inl (by simp [expandParam, jsToString]))
    · exact List.mem_append.mpr (Or.inr (ih hmem))

/-- A key bound exactly once, to an array, contributes exactly one query pair
per array element, in element order, each carrying that element's own string
form. -/
theorem buildQuery_filter_arr (ps : List (String × JsValue)) (k : String) (elems : List JsValue)
    (h : ps.filter (fun b => b.1 == k) = [(k, JsValue.arr elems)]) :
    (buildQuery ps).filter (fun q => q.1 == k) = elems.map (fun item => (k, jsToString item)) := by
  induction ps with
  | nil => simp at h
  | cons b rest ih =>
    obtain ⟨k1, v1⟩ := b
    rw [buildQuery_cons, List.filter_append]
    by_cases hk : (k1 == k) = true
    · rw [List.filter_cons_of_pos (by exact hk)] at h
      simp only [List.cons.injEq] at h
      obtain ⟨heq, hnil⟩ := h
      obtain ⟨h1, h2⟩ := Prod.mk.injEq .. ▸ heq
      subst h2
      rw [h1]
      have hrest := List.filter_eq_nil_iff.mp hnil
      have hhead : (expandParam k (JsValue.arr elems)).filter (fun q => q.1 == k) =
          elems.map (fun item => (k, jsToString item)) := by
        rw [List.filter_eq_self.mpr]
        · simp [expandParam]
        · intro a ha
          rw [expandParam_key ha]
          exact beq_self_eq_true k
      have htail : (buildQuery rest).filter (fun q => q.1 == k) = [] := by
        apply List.filter_eq_nil_iff.mpr
        intro q hq hqk
        rcases mem_buildQuery hq with ⟨v, hv, _, _⟩
        exact hrest (q.1, v) hv hqk
      rw [hhead, htail, List.append_nil]
    · rw [List.filter_cons_of_neg (by exact hk)] at h
      have hhead : (expandParam k1 v1).filter (fun q => q.1 == k) = [] := by
        apply List.filter_eq_nil_iff.mpr
        intro q hq hqk
        rw [expandParam_key hq] at hqk
        exact hk hqk
      rw [hhead, List.nil_append]
      exact ih h

/-! Claim theorems. -/

/-- C2: for every list operation (all of which build their query through
`buildQuery`), a parameter whose value is `undefined` or `null` contributes no
query key at all; concretely, `getOrganisations({limit: 5})` constructs a GET
to `/organisations` whose query is exactly `limit=5`. -/
theorem C2_thm (ps : List (String × JsValue)) (k : String)
    (h : ∀ v, (k, v) ∈ ps → v = JsValue.undef ∨ v = JsValue.null) :
    k ∉ (buildQuery ps).map Prod.fst ∧
    Client.getOrganisations (.obj [(("limit"), .num 5)]) =
      .ok { method := .GET, path := ("/organisations"),
            query := [(("limit"), ("5"))], body := none } := by
  refine ⟨?_, rfl⟩
  intro hmem
  rcases List.mem_map.mp hmem with ⟨q, hq, hfst⟩
  rcases mem_buildQuery hq with ⟨v, hv, hv1, hv2⟩
  rw [hfst] at hv
  rcases h v hv with h3 | h3
  · exact hv1 h3
  · exact hv2 h3

/-- C2 witness: instance at a one-binding parameter set whose only value is
`undefined`. -/
theorem C2_witness :
    (∀ v, ((("a"), v) ∈ [(("a"), JsValue.undef)]) → v = JsValue.undef ∨ v = JsValue.null) ∧
    (("a") ∉ (buildQuery [(("a"), JsValue.undef)]).map Prod.fst ∧
      Client.getOrganisations (.obj [(("limit"), .num 5)]) =
        .ok { method := .GET, path := ("/organisations"),
              query := [(("limit"), ("5"))], body := none }) :=
  ⟨fun v hv => by simp at hv; exact Or.inl hv,
   C2_thm [(("a"), JsValue.undef)] ("a") (fun v hv => by simp at hv; exact Or.inl hv)⟩

/-- C4: `lookupPersons({ids: ['p1','p2']}, ['duties'], true)` is a POST to
`/persons/lookup` whose JSON body is exactly `{ids: ['p1','p2']}` and whose
query is exactly `expand=duties&expandReferenceNames=true`; the ids are not
among the query keys and the body holds nothing but the ids. -/
theorem C4_thm :
    Client.lookupPersons (.obj [(("ids"), .arr [.str ("p1"), .str ("p2")])]) [("duties")] true =
      { method := .POST, path := ("/persons/lookup"),
        query := [(("expand"), ("duties")), (("expandReferenceNames"), ("true"))],
        body := some (.obj [(("ids"), .arr [.str ("p1"), .str ("p2")])]) } ∧
    ("ids") ∉ (Client.lookupPersons (.obj [(("ids"), .arr [.str ("p1"), .str ("p2")])])
        [("duties")] true).query.map Prod.fst ∧
    (Client.lookupPersons (.obj [(("ids"), .arr [.str ("p1"), .str ("p2")])])
        [("duties")] true).body = some (.obj [(("ids"), .arr [.str ("p1"), .str ("p2")])]) :=
  ⟨rfl, by decide, rfl⟩

/-- C7 counterexample: a GET whose response has status 204 (hence an empty
body, which is not valid JSON) does not resolve; `return response.json()`
rejects, so the call raises instead of returning an empty result. -/
theorem C7_counterexample :
    handleGetResponse { status := 204, statusText := ("No Content"), body := none } =
      .error (.syntaxError ("Unexpected end of JSON input")) := rfl

/-- C7 as amended: for every GET whose HTTP response is 2xx (including 204)
with a body that is empty or not valid JSON, `_get` raises the JSON parse
error rather than resolving with an empty result. -/
theorem C7_thm (r : Response) (h : r.ok = true) (hb : r.body = none) :
    handleGetResponse r = .error (.syntaxError ("Unexpected end of JSON input")) := by
  simp [handleGetResponse, h, hb]

/-- C7 witness: instance at a 200 response with an empty body. -/
theorem C7_witness :
    Response.ok { status := 200, statusText := ("OK"), body := none } = true ∧
    handleGetResponse { status := 200, statusText := ("OK"), body := none } =
      .error (.syntaxError ("Unexpected end of JSON input")) :=
  ⟨by decide, C7_thm { status := 200, statusText := ("OK"), body := none } (by decide) rfl⟩

/-- C8 counterexample: `getOrganisationById(undefined)` does not throw; it
constructs (and would send) a GET whose path is `/organisations/undefined`,
contradicting the fail-fast claim. -/
theorem C8_counterexample :
    Client.getOrganisationById .undef false =
      { method := .GET, path := ("/organisations/undefined"),
        query := [(("expandReferenceNames"), ("false"))], body := none } := rfl

/-- C8 as amended: `getOrganisationById` performs no id validation at all;
with an `undefined` id the request path is `/organisations/undefined`, and
with an empty-string id it is `/organisations/`. -/
theorem C8_thm :
    (Client.getOrganisationById .undef false).path = ("/organisations/undefined") ∧
    (Client.getOrganisationById (.str ("")) false).path = ("/organisations/") :=
  ⟨rfl, rfl⟩

/-- C5: on every verb, a non-2xx response raises an `Error` whose message
carries the HTTP status, the status text, and the response body parsed as
JSON, falling back to `{message: statusText}` when the body is not valid
JSON; the failure is never swallowed (the result is always the error). -/
theorem C5_thm (r : Response) (h : r.ok = false) (h204 : r.status ≠ 204) :
    handleGetResponse r = .error (.error (("API call failed: ") ++ toString r.status ++ (" ")
        ++ r.statusText ++ (" - ") ++ jsonStringify (match r.body with
          | some v => v
          | none => JsValue.obj [(("message"), .str r.statusText)]))) ∧
    handlePostResponse r = handleGetResponse r ∧
    handlePatchResponse r = handleGetResponse r ∧
    handleDeleteResponse r = .error (.error (("API call failed: ") ++ toString r.status ++ (" ")
        ++ r.statusText ++ (" - ") ++ jsonStringify (match r.body with
          | some v => v
          | none => JsValue.obj [(("message"), .str r.statusText)]))) := by
  refine ⟨?_, ?_, ?_, ?_⟩ <;>
    simp [handleGetResponse, handlePostResponse, handlePatchResponse, handleDeleteResponse,
      apiErrorMessage, errorPayload, h, h204]

/-- C5 witness: a 404 with JSON body `{error: "not_found"}` on GET (the
`/organisations/x` scenario) surfaces the parsed body and the status in the
raised error, on every verb. -/
theorem C5_witness :
    Response.ok { status := 404, statusText := ("Not Found"), body := some (.obj [(("error"), .str ("not_found"))]) } = false ∧
    (handleGetResponse { status := 404, statusText := ("Not Found"), body := some (.obj [(("error"), .str ("not_found"))]) } =
      .error (.error (("API call failed: 404 Not Found - \x7b\"error\":\"not_found\"\x7d"))) ∧
    handlePostResponse { status := 404, statusText := ("Not Found"), body := some (.obj [(("error"), .str ("not_found"))]) } =
      handleGetResponse { status := 404, statusText := ("Not Found"), body := some (.obj [(("error"), .str ("not_found"))]) } ∧
    handlePatchResponse { status := 404, statusText := ("Not Found"), body := some (.obj [(("error"), .str ("not_found"))]) } =
      handleGetResponse { status := 404, statusText := ("Not Found"), body := some (.obj [(("error"), .str ("not_found"))]) } ∧
    handleDeleteResponse { status := 404, statusText := ("Not Found"), body := some (.obj [(("error"), .str ("not_found"))]) } =
      .error (.error (("API call failed: 404 Not Found - \x7b\"error\":\"not_found\"\x7d")))) :=
  ⟨by decide,
   C5_thm { status := 404, statusText := ("Not Found"), body := some (.obj [(("error"), .str ("not_found"))]) } (by decide) (by decide)⟩

/-- C1 counterexample: the claim demands that every list method, including the
`part_003` variant, turn the flat camelCase field `metaModifiedAfter` into the
wire key `meta.modified.after`; but the variant's `getAttendances`, called
with exactly that flat field, throws a `TypeError` while dereferencing
`params.meta.created` and constructs no query at all. -/
theorem C1_counterexample :
    Part003.getAttendances (.obj [(("metaModifiedAfter"), .str ("2024-01-01T00:00:00Z"))]) =
      .error (.typeError ("Cannot read properties of undefined (reading created)")) := rfl

/-- C1 as amended: in `ss12000-client.js` the list methods (here `getPersons`
and `getOrganisations`) map the flat camelCase field `metaModifiedAfter` to
exactly the wire key `meta.modified.after`, and a key spelled
`metaModifiedAfter` never reaches the query. -/
theorem C1_thm (fields : List (String × JsValue)) (v : String)
    (h : List.lookup ("metaModifiedAfter") fields = some (JsValue.str v)) :
    (∃ req, Client.getPersons (.obj fields) = .ok req ∧
      (((("meta.modified.after"), v) ∈ req.query) ∧
        ("metaModifiedAfter") ∉ req.query.map Prod.fst)) ∧
    (∃ req, Client.getOrganisations (.obj fields) = .ok req ∧
      (((("meta.modified.after"), v) ∈ req.query) ∧
        ("metaModifiedAfter") ∉ req.query.map Prod.fst)) := by
  have hv : jsGetD fields ("metaModifiedAfter") = JsValue.str v := by
    simp [jsGetD, h]
  constructor
  · simp only [Client.getPersons, jsGet_obj, ok_bind, pure_eq_ok, hv]
    refine ⟨_, rfl, ?_, ?_⟩
    · exact mem_buildQuery_of_str (by simp)
    · intro hmem
      rcases List.mem_map.mp hmem with ⟨q, hq, hfst⟩
      have h2 := buildQuery_keys_sub hq
      rw [hfst] at h2
      simp at h2
  · simp only [Client.getOrganisations, jsGet_obj, ok_bind, pure_eq_ok, hv]
    refine ⟨_, rfl, ?_, ?_⟩
    · exact mem_buildQuery_of_str (by simp)
    · intro hmem
      rcases List.mem_map.mp hmem with ⟨q, hq, hfst⟩
      have h2 := buildQuery_keys_sub hq
      rw [hfst] at h2
      simp at h2

/-- C1 witness: instance at `{metaModifiedAfter: "2024-05-01"}`. -/
theorem C1_witness :
    List.lookup ("metaModifiedAfter") [(("metaModifiedAfter"), JsValue.str ("2024-05-01"))] =
      some (JsValue.str ("2024-05-01")) ∧
    ((∃ req, Client.getPersons (.obj [(("metaModifiedAfter"), JsValue.str ("2024-05-01"))]) = .ok req ∧
      (((("meta.modified.after"), ("2024-05-01")) ∈ req.query) ∧
        ("metaModifiedAfter") ∉ req.query.map Prod.fst)) ∧
    (∃ req, Client.getOrganisations (.obj [(("metaModifiedAfter"), JsValue.str ("2024-05-01"))]) = .ok req ∧
      (((("meta.modified.after"), ("2024-05-01")) ∈ req.query) ∧
        ("metaModifiedAfter") ∉ req.query.map Prod.fst))) :=
  ⟨rfl, C1_thm [(("metaModifiedAfter"), JsValue.str ("2024-05-01"))] ("2024-05-01") rfl⟩

/-- C3: a sequence-valued parameter of length N contributes exactly N
occurrences of its wire key to the constructed query, one per element in
input order, each carrying that element's own string form (so never
comma-joined or JSON-encoded into one value); concretely,
`lookupPersons(body, ['duties','responsibleFor'], false)` repeats `expand`
once per element. -/
theorem C3_thm (ps : List (String × JsValue)) (k : String) (elems : List JsValue)
    (h : ps.filter (fun b => b.1 == k) = [(k, JsValue.arr elems)]) :
    (buildQuery ps).filter (fun q => q.1 == k) = elems.map (fun item => (k, jsToString item)) ∧
    (buildQuery ps).countP (fun q => q.1 == k) = elems.length ∧
    (Client.lookupPersons (.obj []) [("duties"), ("responsibleFor")] false).query =
      [(("expand"), ("duties")), (("expand"), ("responsibleFor")),
       (("expandReferenceNames"), ("false"))] := by
  refine ⟨buildQuery_filter_arr ps k elems h, ?_, rfl⟩
  rw [List.countP_eq_length_filter, buildQuery_filter_arr ps k elems h, List.length_map]

/-- C3 witness: instance at a single `expand` binding holding a two-element
array. -/
theorem C3_witness :
    ([(("expand"), JsValue.arr [.str ("duties"), .str ("responsibleFor")])].filter
        (fun b => b.1 == ("expand")) =
      [(("expand"), JsValue.arr [.str ("duties"), .str ("responsibleFor")])]) ∧
    ((buildQuery [(("expand"), JsValue.arr [.str ("duties"), .str ("responsibleFor")])]).filter
        (fun q => q.1 == ("expand")) =
      [.str ("duties"), .str ("responsibleFor")].map (fun item => ((("expand") : String), jsToString item)) ∧
    (buildQuery [(("expand"), JsValue.arr [.str ("duties"), .str ("responsibleFor")])]).countP
        (fun q => q.1 == ("expand")) = ([.str ("duties"), .str ("responsibleFor")] : List JsValue).length ∧
    (Client.lookupPersons (.obj []) [("duties"), ("responsibleFor")] false).query =
      [(("expand"), ("duties")), (("expand"), ("responsibleFor")),
       (("expandReferenceNames"), ("false"))]) :=
  ⟨rfl, C3_thm [(("expand"), JsValue.arr [.str ("duties"), .str ("responsibleFor")])]
    ("expand") [.str ("duties"), .str ("responsibleFor")] rfl⟩

/-- C9 counterexample: the primary client's `getDeletedEntities` does not
accept `{after, entities, limit, pageToken}`: supplying `after` and `limit`
yields a query with no keys at all (only `entities` and `metaModifiedAfter`
are mapped there), contradicting the claim for the main client. -/
theorem C9_counterexample :
    Client.getDeletedEntities (.obj [(("after"), .str ("2024-01-01T00:00:00Z")), (("limit"), .num 5)]) =
      .ok { method := .GET, path := ("/deletedEntities"), query := [], body := none } := rfl

/-- C9 as amended: the `part_003` variant's `getDeletedEntities` accepts
`{after, entities, limit, pageToken}` and constructs a GET to
`/deletedEntities` whose query holds exactly the supplied subset of those
four parameters (`entities` one occurrence per element); the primary client's
`getDeletedEntities` instead maps only `{entities, metaModifiedAfter}`. -/
theorem C9_thm (fields : List (String × JsValue)) (oa : Option String)
    (oes : Option (List String)) (ol : Option Int) (op : Option String)
    (ha : List.lookup ("after") fields = oa.map JsValue.str)
    (he : List.lookup ("entities") fields = oes.map (fun es => JsValue.arr (es.map JsValue.str)))
    (hl : List.lookup ("limit") fields = ol.map JsValue.num)
    (hp : List.lookup ("pageToken") fields = op.map JsValue.str) :
    Part003.getDeletedEntities (.obj fields) =
      .ok { method := .GET, path := ("/deletedEntities"),
            query := (match oa with | some a => [(("after"), a)] | none => [])
              ++ ((oes.getD []).map (fun e => ((("entities") : String), e)))
              ++ (match ol with | some l => [(("limit"), toString l)] | none => [])
              ++ (match op with | some p => [(("pageToken"), p)] | none => []),
            body := none } := by
  simp only [Part003.getDeletedEntities, jsGet_obj, ok_bind, pure_eq_ok, jsGetD, ha, he, hl, hp]
  cases oa <;> cases oes <;> cases ol <;> cases op <;>
    simp [buildQuery, jsToString, List.map_map, Function.comp]

/-- C9 witness: instance with all four parameters supplied. -/
theorem C9_witness :
    List.lookup ("after") [(("after"), JsValue.str ("2024-01-01T00:00:00Z")), (("entities"), JsValue.arr [.str ("Person")]), (("limit"), JsValue.num 5), (("pageToken"), JsValue.str ("tok"))] = (some ("2024-01-01T00:00:00Z")).map JsValue.str ∧
    List.lookup ("entities") [(("after"), JsValue.str ("2024-01-01T00:00:00Z")), (("entities"), JsValue.arr [.str ("Person")]), (("limit"), JsValue.num 5), (("pageToken"), JsValue.str ("tok"))] = (some [("Person")]).map (fun es => JsValue.arr (es.map JsValue.str)) ∧
    List.lookup ("limit") [(("after"), JsValue.str ("2024-01-01T00:00:00Z")), (("entities"), JsValue.arr [.str ("Person")]), (("limit"), JsValue.num 5), (("pageToken"), JsValue.str ("tok"))] = (some (5 : Int)).map JsValue.num ∧
    List.lookup ("pageToken") [(("after"), JsValue.str ("2024-01-01T00:00:00Z")), (("entities"), JsValue.arr [.str ("Person")]), (("limit"), JsValue.num 5), (("pageToken"), JsValue.str ("tok"))] = (some ("tok")).map JsValue.str ∧
    Part003.getDeletedEntities (.obj [(("after"), JsValue.str ("2024-01-01T00:00:00Z")), (("entities"), JsValue.arr [.str ("Person")]), (("limit"), JsValue.num 5), (("pageToken"), JsValue.str ("tok"))]) =
      .ok { method := .GET, path := ("/deletedEntities"),
            query := (match (some ("2024-01-01T00:00:00Z") : Option String) with | some a => [(("after"), a)] | none => [])
              ++ (((some [("Person")] : Option (List String)).getD []).map (fun e => ((("entities") : String), e)))
              ++ (match (some (5 : Int) : Option Int) with | some l => [(("limit"), toString l)] | none => [])
              ++ (match (some ("tok") : Option String) with | some p => [(("pageToken"), p)] | none => []),
            body := none } :=
  ⟨rfl, rfl, rfl, rfl,
   C9_thm [(("after"), JsValue.str ("2024-01-01T00:00:00Z")), (("entities"), JsValue.arr [.str ("Person")]), (("limit"), JsValue.num 5), (("pageToken"), JsValue.str ("tok"))]
     (some ("2024-01-01T00:00:00Z")) (some [("Person")]) (some 5) (some ("tok")) rfl rfl rfl rfl⟩

/-- C10: in the `part_003` variant, calling `getAttendances` or
`getSyllabuses` with a params object that has no `meta` property — including
the default no-argument call, whose params default to `{}` — throws a
`TypeError` while building the mapped parameter object (dereferencing
`params.meta.created`), so no request is ever constructed or sent. -/
theorem C10_thm (fields : List (String × JsValue))
    (h : List.lookup ("meta") fields = none) :
    Part003.getAttendances (.obj fields) =
      .error (.typeError ("Cannot read properties of undefined (reading created)")) ∧
    Part003.getSyllabuses (.obj fields) =
      .error (.typeError ("Cannot read properties of undefined (reading created)")) ∧
    Part003.getAttendances (.obj []) =
      .error (.typeError ("Cannot read properties of undefined (reading created)")) := by
  have hm : jsGetD fields ("meta") = JsValue.undef := by
    simp [jsGetD, h]
  refine ⟨?_, ?_, rfl⟩ <;>
    simp only [Part003.getAttendances, Part003.getSyllabuses, jsGet_obj, ok_bind, hm] <;> rfl

/-- C10 witness: instance at a params object holding only `student`. -/
theorem C10_witness :
    List.lookup ("meta") [(("student"), JsValue.str ("s1"))] = none ∧
    (Part003.getAttendances (.obj [(("student"), JsValue.str ("s1"))]) =
      .error (.typeError ("Cannot read properties of undefined (reading created)")) ∧
    Part003.getSyllabuses (.obj [(("student"), JsValue.str ("s1"))]) =
      .error (.typeError ("Cannot read properties of undefined (reading created)")) ∧
    Part003.getAttendances (.obj []) =
      .error (.typeError ("Cannot read properties of undefined (reading created)"))) :=
  ⟨rfl, C10_thm [(("student"), JsValue.str ("s1"))] rfl⟩

/-- C6: a DELETE whose response has status 204 resolves with no error and no
body, while a DELETE whose response is non-2xx (and not 204) raises an
`Error` carrying that status; 204 is never treated as a failure. -/
theorem C6_thm :
    (∀ r : Response, r.status = 204 → handleDeleteResponse r = .ok ()) ∧
    (∀ r : Response, r.ok = false → r.status ≠ 204 →
      handleDeleteResponse r = .error (.error (("API call failed: ") ++ toString r.status
        ++ (" ") ++ r.statusText ++ (" - ") ++ jsonStringify (match r.body with
          | some v => v
          | none => JsValue.obj [(("message"), .str r.statusText)])))) := by
  constructor
  · intro r h
    simp [handleDeleteResponse, h]
  · intro r h h204
    simp [handleDeleteResponse, apiErrorMessage, errorPayload, h, h204]

/-- C6 witness: a 204 resolves; a 404 raises with the status in the error. -/
theorem C6_witness :
    handleDeleteResponse { status := 204, statusText := ("No Content"), body := none } = .ok () ∧
    handleDeleteResponse { status := 404, statusText := ("Not Found"), body := none } =
      .error (.error (("API call failed: 404 Not Found - \x7b\"message\":\"Not Found\"\x7d"))) :=
  ⟨C6_thm.1 { status := 204, statusText := ("No Content"), body := none } rfl,
   C6_thm.2 { status := 404, statusText := ("Not Found"), body := none } (by decide) (by decide)⟩

end SS12000
